import Mathlib

/-!
Verification of the n01d-media job execution engine against its
natural-language specification.

The definitions below are a shallow embedding of the Python source:

* `buildFfmpegCommand`  embeds `MediaEncoder._build_ffmpeg_command`
  (src/modules/encoder.py, lines 644-744);
* `encodeFiles`         embeds the batch loop `MediaEncoder._encode_files`
  together with `_encode_error`, `_update_progress`, `_encode_complete`
  (encoder.py, lines 602-642, 746-767);
* `monitorLine`         embeds the per-line body of the stderr monitor loop
  (encoder.py, lines 627-634);
* `cancelEncodeUI` / `encodeCompleteUI` embed `cancel_encode` and
  `_encode_complete` (encoder.py, lines 758-776);
* `buildRecordCommand`  embeds `ScreenRecorder._build_ffmpeg_command`
  (src/modules/screen_recorder.py, lines 527-571);
* `stopRecordingTrace`, `stopRecordingUI` embed `ScreenRecorder._stop_recording`
  (screen_recorder.py, lines 591-617);
* `togglePause`         embeds `ScreenRecorder._toggle_pause`
  (screen_recorder.py, lines 573-589);
* `refreshRecordingsList` embeds `ScreenRecorder._refresh_recordings_list`
  (screen_recorder.py, lines 387-404).

Widget reads (`self.xxx.get()`) become explicit fields of a settings record;
environment reads (`os.environ.get("DISPLAY", ":0")`, `datetime.now()`)
become explicit arguments, since they are inputs the Python code takes from
its surroundings.
-/

namespace N01D

/-! ### String helpers (substring / suffix tests used by the source) -/

/-- `hasPre cs p` is true when `p` is a leading segment of `cs`
(character-list version of Python's `str.startswith`). -/
def hasPre : List Char → List Char → Bool
  | _, [] => true
  | [], _ :: _ => false
  | c :: cs, p :: ps => c == p && hasPre cs ps

/-- `hasSub cs p` is true when `p` occurs contiguously inside `cs`. -/
def hasSub : List Char → List Char → Bool
  | [], p => p.isEmpty
  | c :: cs, p => hasPre (c :: cs) p || hasSub cs p

/-- Python's `pat in s` substring test on strings. -/
def strContains (s pat : String) : Bool :=
  hasSub s.data pat.data

/-- Suffix test: models which file names the glob pattern `*.mp4` accepts
(a name ending in the literal suffix). -/
def strEndsWith (s suf : String) : Bool :=
  hasPre s.data.reverse suf.data.reverse

/-! ### Path helpers (the fragments of `pathlib.Path` the source uses) -/

/-- Index of the last occurrence of `c` in `cs`, if any. -/
def lastIdxOf (cs : List Char) (c : Char) : Option Nat :=
  (List.range cs.length).foldl
    (fun acc i => if cs.getD i ' ' == c then some i else acc) none

/-- Final path component, as in `Path(p).name`. -/
def pyName (p : String) : String :=
  match lastIdxOf p.data '/' with
  | none => p
  | some i => String.mk (p.data.drop (i + 1))

/-- `Path(p).parent` rendered as a string: the part before the last slash,
`"."` when there is no slash (pathlib's parent of a bare file name). -/
def pyParent (p : String) : String :=
  match lastIdxOf p.data '/' with
  | none => "."
  | some 0 => "/"
  | some i => String.mk (p.data.take i)

/-- `Path(name).stem`: the name without its last suffix; a leading dot or a
trailing dot does not start a suffix, matching pathlib. -/
def pyStem (name : String) : String :=
  match lastIdxOf name.data '.' with
  | none => name
  | some i =>
    if 0 < i ∧ i + 1 < name.data.length then String.mk (name.data.take i)
    else name

/-- `str(Path(dir) / name)`: pathlib drops a `"."` base and collapses the
root into a single slash. -/
def joinPath (dir name : String) : String :=
  if dir = "." then name
  else if dir = "" then name
  else if dir = "/" then "/" ++ name
  else dir ++ "/" ++ name

/-! ### Encoder command builder (encoder.py, `_build_ffmpeg_command`) -/

/-- The widget state `_build_ffmpeg_command` reads through `self`:
output directory entry, resolution dropdown, preset slider position,
video-bitrate entry, fps dropdown, audio codec / bitrate / sample-rate
widgets.  There is no overwrite option anywhere in the encoder UI. -/
structure EncSettings where
  outputDir : Option String
  resolution : String
  presetIdx : Nat
  videoBitrate : String
  fps : String
  audioCodec : String
  audioBitrate : String
  sampleRate : String
deriving DecidableEq

/-- The `ext_map` dictionary with default `".mp4"` (encoder.py 647-667). -/
def extMap (formatName : String) : String :=
  if formatName = "MP4 (H.264)" then ".mp4"
  else if formatName = "MKV (H.264)" then ".mkv"
  else if formatName = "WebM (VP9)" then ".webm"
  else if formatName = "AVI" then ".avi"
  else if formatName = "MOV" then ".mov"
  else if formatName = "GIF" then ".gif"
  else if formatName = "MP3" then ".mp3"
  else if formatName = "AAC (M4A)" then ".m4a"
  else if formatName = "FLAC" then ".flac"
  else if formatName = "WAV" then ".wav"
  else if formatName = "OGG (Vorbis)" then ".ogg"
  else if formatName = "Opus" then ".opus"
  else if formatName = "PNG" then ".png"
  else if formatName = "JPEG" then ".jpg"
  else if formatName = "WebP" then ".webp"
  else if formatName = "BMP" then ".bmp"
  else if formatName = "TIFF" then ".tiff"
  else ".mp4"

/-- The preset name list indexed by the slider (encoder.py 692-693);
the slider range is 0..8 so the default is never reached. -/
def presetNames : List String :=
  ["ultrafast", "superfast", "veryfast", "faster", "fast",
   "medium", "slow", "slower", "veryslow"]

/-- `res.split()[0]` on the resolution dropdown text (encoder.py 682). -/
def firstWord (s : String) : String :=
  (s.splitOn " ").headD s

/-- Derived output path (encoder.py 669-673):
`<output_dir or input.parent>/<input_stem>_converted<ext>`. -/
def outputPathFor (inputFile : String) (formatName : String)
    (s : EncSettings) : String :=
  let ext := extMap formatName
  let outName := pyStem (pyName inputFile) ++ "_converted" ++ ext
  match s.outputDir with
  | some d => joinPath d outName
  | none => joinPath (pyParent inputFile) outName

/-- Arguments appended for `category == "Video"` (encoder.py 678-717),
in source order: resolution, video codec, preset, optional video bitrate,
optional fps, audio codec, audio bitrate. -/
def videoArgs (formatName : String) (s : EncSettings) : List String :=
  (if s.resolution ≠ "Original" ∧ s.resolution ≠ "Custom" then
     ["-s", firstWord s.resolution] else [])
  ++ (if strContains formatName "H.264" then ["-c:v", "libx264"]
      else if strContains formatName "VP9" then ["-c:v", "libvpx-vp9"]
      else [])
  ++ ["-preset", presetNames.getD s.presetIdx ""]
  ++ (if s.videoBitrate ≠ "" then ["-b:v", s.videoBitrate ++ "k"] else [])
  ++ (if s.fps ≠ "Original" then ["-r", s.fps] else [])
  ++ (if s.audioCodec = "AAC" then ["-c:a", "aac"]
      else if s.audioCodec = "MP3" then ["-c:a", "libmp3lame"]
      else if s.audioCodec = "Copy" then ["-c:a", "copy"]
      else [])
  ++ ["-b:a", s.audioBitrate]

/-- Arguments appended for `category == "Audio"` (encoder.py 719-737). -/
def audioArgs (formatName : String) (s : EncSettings) : List String :=
  ["-vn"]
  ++ (if strContains formatName "MP3" then ["-c:a", "libmp3lame"]
      else if strContains formatName "AAC" then ["-c:a", "aac"]
      else if strContains formatName "FLAC" then ["-c:a", "flac"]
      else if strContains formatName "Opus" then ["-c:a", "libopus"]
      else [])
  ++ ["-b:a", s.audioBitrate]
  ++ (if s.sampleRate ≠ "Original" then ["-ar", s.sampleRate] else [])

/-- Category dispatch of `_build_ffmpeg_command`; the image branch
appends nothing (encoder.py 739-741). -/
def categoryArgs (category formatName : String) (s : EncSettings) :
    List String :=
  if category = "Video" then videoArgs formatName s
  else if category = "Audio" then audioArgs formatName s
  else []

/-- `MediaEncoder._build_ffmpeg_command` (encoder.py 644-744):
`['ffmpeg', '-i', input, '-y']`, the category-specific flags, then the
derived output path as the trailing positional argument.  Note `'-y'`
is part of the unconditional base list. -/
def buildFfmpegCommand (inputFile category formatName : String)
    (s : EncSettings) : List String :=
  ["ffmpeg", "-i", inputFile, "-y"]
  ++ categoryArgs category formatName s
  ++ [outputPathFor inputFile formatName s]

/-! ### Recorder command builder (screen_recorder.py, `_build_ffmpeg_command`) -/

/-- One entry of `QUALITY_PRESETS` (screen_recorder.py 56-61): the crf
value and encoder preset name actually read by the builder. -/
structure Quality where
  crf : Nat
  preset : String
deriving DecidableEq

/-- Screen grab input (screen_recorder.py 534-539); `display` is the
value of `os.environ.get("DISPLAY", ":0")`. -/
def screenGrabArgs (presetId : String) (fps : Nat) (display : String) :
    List String :=
  if presetId ∈ ["screen_only", "screen_audio", "screen_mic", "screen_all"]
  then ["-f", "x11grab", "-framerate", toString fps, "-i", display]
  else []

/-- System-audio input (screen_recorder.py 542-544). -/
def sysAudioArgs (presetId : String) : List String :=
  if presetId ∈ ["screen_audio", "screen_all"]
  then ["-f", "pulse", "-i", "default"] else []

/-- Microphone input (screen_recorder.py 546-548): the source appends the
very same PulseAudio default-device arguments as the system-audio block. -/
def micArgs (presetId : String) : List String :=
  if presetId ∈ ["screen_mic", "screen_all"]
  then ["-f", "pulse", "-i", "default"] else []

/-- Webcam input (screen_recorder.py 551-556). -/
def webcamArgs (presetId : String) (fps : Nat) : List String :=
  if presetId ∈ ["webcam", "webcam_screen"]
  then ["-f", "v4l2", "-framerate", toString fps, "-i", "/dev/video0"]
  else []

/-- Fixed output encoding options (screen_recorder.py 559-564). -/
def outEncArgs (q : Quality) : List String :=
  ["-c:v", "libx264", "-preset", q.preset, "-crf", toString q.crf,
   "-pix_fmt", "yuv420p"]

/-- Audio encoding options for presets that record audio
(screen_recorder.py 566-567). -/
def audioCodecArgs (presetId : String) : List String :=
  if presetId ∉ ["screen_only", "webcam"]
  then ["-c:a", "aac", "-b:a", "128k"] else []

/-- `ScreenRecorder._build_ffmpeg_command` (screen_recorder.py 527-571).
`outFile` is `str(self.current_output_file)`, set by `_begin_capture`. -/
def buildRecordCommand (presetId : String) (q : Quality) (fps : Nat)
    (display outFile : String) : List String :=
  ["ffmpeg", "-y"]
  ++ screenGrabArgs presetId fps display
  ++ sysAudioArgs presetId
  ++ micArgs presetId
  ++ webcamArgs presetId fps
  ++ outEncArgs q
  ++ audioCodecArgs presetId
  ++ [outFile]

/-- The output file chosen by `_begin_capture` (screen_recorder.py 486-488):
`output_dir / "recording_<timestamp>.<ext>"` where the timestamp is
`datetime.now().strftime("%Y%m%d_%H%M%S")`. -/
def mkOutputFile (dir timestamp ext : String) : String :=
  joinPath dir ("recording_" ++ timestamp ++ "." ++ ext)

/-! ### Batch encoding loop (encoder.py, `_encode_files`)

The worker thread iterates over the input files sequentially.  What the
external process does for a given file is an input to the model: `Popen`
either succeeds, raises (missing executable and the like), or the spawned
process exits with a non-zero code.  UI callbacks scheduled with
`self.after(0, ...)` run on the Tk main loop; they are modelled as taking
effect before the worker's next loop-condition check, which is the ordering
an idle main loop produces. -/

/-- Result of running one file's external process. -/
inductive JobOutcome
  | ok
  | raiseSpawn (msg : String)
  | exitNonzero (code : Nat)

/-- The mutable fields `_encode_files`, `_update_progress`, `_encode_error`
and `_encode_complete` touch: the `is_encoding` flag, the progress bar
value, the progress label, plus (for the model) the list of files whose
process was actually spawned. -/
structure BatchState where
  isEncoding : Bool
  progressBar : ℚ
  label : String
  processed : List String
deriving DecidableEq

/-- `_update_progress` (encoder.py 746-749). -/
def updateProgressUI (p : ℚ) (msg : String) (s : BatchState) : BatchState :=
  { s with progressBar := p, label := msg }

/-- `_encode_error` (encoder.py 751-756): shows the error and clears
`is_encoding`. -/
def encodeErrorB (msg : String) (s : BatchState) : BatchState :=
  { s with label := "Error: " ++ msg, isEncoding := false }

/-- `_encode_complete` (encoder.py 758-764): runs after the loop whatever
happened in it, showing full progress and a success message. -/
def encodeCompleteB (s : BatchState) : BatchState :=
  { s with progressBar := 1, label := "Encoding complete!",
           isEncoding := false }

/-- One iteration of the loop in `_encode_files` (encoder.py 606-640).
Once `is_encoding` is false nothing ever sets it back, so modelling the
`break` as skipping each remaining file is equivalent.  A non-zero exit
code is indistinguishable from success: the loop never reads
`returncode`. -/
def encodeOneFile (outcome : String → JobOutcome) (total : Nat)
    (s : BatchState) (iFile : Nat × String) : BatchState :=
  if s.isEncoding = false then s
  else
    let s := updateProgressUI ((iFile.1 : ℚ) / (total : ℚ))
      ("Encoding: " ++ iFile.2) s
    match outcome iFile.2 with
    | .raiseSpawn msg => encodeErrorB msg s
    | .ok => { s with processed := s.processed ++ [iFile.2] }
    | .exitNonzero _ => { s with processed := s.processed ++ [iFile.2] }

/-- `_encode_files` (encoder.py 602-642): fold the loop body over the
indexed file list, then run `_encode_complete`. -/
def encodeFiles (files : List String) (outcome : String → JobOutcome) :
    BatchState :=
  encodeCompleteB (files.enum.foldl (encodeOneFile outcome files.length)
    { isEncoding := true, progressBar := 0, label := "", processed := [] })

/-! ### Stderr monitor (encoder.py 627-634)

The body of `for line in self.current_process.stderr` checks for the
`time=` marker, but the branch under it is literally `pass`: no elapsed
time is extracted and no progress value is ever produced. -/

/-- Per-line result of the monitor loop: the progress fraction it reports,
if any.  The marker branch (encoder.py 632-634) is the source's `pass`. -/
def monitorLine (isEncoding : Bool) (line : String) : Option ℚ :=
  if isEncoding = false then none
  else if strContains line "time=" then none
  else none

/-! ### Encoder job control UI state (encoder.py 746-776) -/

/-- The fields `cancel_encode`, `_encode_error` and `_encode_complete`
assign: the flag, the label and the two button states, plus the progress
bar. -/
structure EncoderUI where
  isEncoding : Bool
  label : String
  startEnabled : Bool
  cancelEnabled : Bool
  progressBar : ℚ
deriving DecidableEq

/-- `_encode_complete` as a transition on the UI state (encoder.py
758-764); every field it writes is a constant. -/
def encodeCompleteUI (_ : EncoderUI) : EncoderUI :=
  { isEncoding := false, label := "Encoding complete!",
    startEnabled := true, cancelEnabled := false, progressBar := 1 }

/-- `cancel_encode` (encoder.py 769-776).  It also re-sends `terminate()`
to `current_process` (a no-op signal once the process has exited); the
state fields it writes are below.  It runs unconditionally: there is no
check of the current state. -/
def cancelEncodeUI (s : EncoderUI) : EncoderUI :=
  { isEncoding := false, label := "Encoding cancelled",
    startEnabled := true, cancelEnabled := false,
    progressBar := s.progressBar }

/-! ### Recorder session state and controls (screen_recorder.py) -/

/-- The recorder fields read and written by `_toggle_pause` and
`_stop_recording`: the two flags, the process (by pid) and the status
text. -/
structure RecorderUI where
  isRecording : Bool
  isPaused : Bool
  processPid : Option Nat
  status : String
deriving DecidableEq

/-- OS signals sent by `_toggle_pause`. -/
inductive SignalKind
  | sigstop
  | sigcont
deriving DecidableEq

/-- Process-level actions a control call can perform. -/
inductive ProcAction
  | sendSignal (pid : Nat) (k : SignalKind)
  | spawnProc (pid : Nat)
deriving DecidableEq

/-- `_toggle_pause` (screen_recorder.py 573-589): with no live process it
returns at once; otherwise it sends SIGCONT or SIGSTOP to that same
process and flips `is_paused`.  It never creates a process. -/
def togglePause (s : RecorderUI) : RecorderUI × List ProcAction :=
  match s.processPid with
  | none => (s, [])
  | some pid =>
    if s.isPaused then
      ({ s with isPaused := false, status := "🔴 Recording..." },
       [.sendSignal pid .sigcont])
    else
      ({ s with isPaused := true, status := "⏸ Paused" },
       [.sendSignal pid .sigstop])

/-- `wait(timeout=5)` in `_stop_recording` (screen_recorder.py 598). -/
def stopGraceSeconds : Nat := 5

/-- The observable steps of `_stop_recording`'s process interaction. -/
inductive StopAction
  | writeQ
  | flushQ
  | waitProc (timedOut : Bool)
  | terminateProc
deriving DecidableEq

/-- The process interaction of `_stop_recording` (screen_recorder.py
593-600): write `'q'` to stdin, flush, wait up to `stopGraceSeconds`; the
bare `except` catches a failure of any of the three steps and calls
`terminate()`.  The three booleans say which steps succeed: whether the
write is accepted, whether the flush is accepted, and whether the process
exits within the grace window. -/
def stopRecordingTrace (writeOk flushOk exitsInGrace : Bool) :
    List StopAction :=
  if writeOk = false then [.writeQ, .terminateProc]
  else if flushOk = false then [.writeQ, .flushQ, .terminateProc]
  else if exitsInGrace = false then
    [.writeQ, .flushQ, .waitProc true, .terminateProc]
  else [.writeQ, .flushQ, .waitProc false]

/-- The state updates of `_stop_recording` (screen_recorder.py 602-611):
they run unconditionally, whether or not a process was live, and write
the same constants every time. -/
def stopRecordingUI (_ : RecorderUI) : RecorderUI :=
  { isRecording := false, isPaused := false, processPid := none,
    status := "Recording saved!" }

/-! ### Recent recordings registry (screen_recorder.py 387-404) -/

/-- A directory entry as the registry code sees it: file name and
modification time. -/
structure DirEntry where
  name : String
  mtime : Nat
deriving DecidableEq

/-- Sort key of `_refresh_recordings_list`: newer first
(`key=st_mtime, reverse=True`). -/
def mtimeDesc (a b : DirEntry) : Prop := b.mtime ≤ a.mtime

instance : DecidableRel mtimeDesc := fun a b => Nat.decLe b.mtime a.mtime

instance : IsTotal DirEntry mtimeDesc :=
  ⟨fun a b => Nat.le_total b.mtime a.mtime⟩

instance : IsTrans DirEntry mtimeDesc :=
  ⟨fun _ _ _ h h' => Nat.le_trans h' h⟩

/-- `_refresh_recordings_list` (screen_recorder.py 387-404): the entries
shown are `sorted(output_dir.glob("*.mp4"), key=mtime, reverse=True)[:10]`
— only `.mp4` names, newest first, at most ten.  Python's `sorted` is a
stable comparison sort; insertion sort is one such. -/
def refreshRecordingsList (dir : List DirEntry) : List DirEntry :=
  (List.insertionSort mtimeDesc
    (dir.filter (fun f => strEndsWith f.name ".mp4"))).take 10

/-! ## Claims -/

/-- The C1 scenario's widget state: no output-directory override,
resolution and fps dropdowns at their initial `"Original"` value, preset
slider at the `"medium"` position (index 5), empty video-bitrate entry
(the spec's `bitrate: null`), audio codec at its initial `"AAC"`, audio
bitrate at the explicitly initialised `"192k"`, sample rate `"Original"`. -/
def c1Settings : EncSettings :=
  { outputDir := none, resolution := "Original", presetIdx := 5,
    videoBitrate := "", fps := "Original", audioCodec := "AAC",
    audioBitrate := "192k", sampleRate := "Original" }

/-- C1: for spec inputs `["clip.mov"]`, category video, codec h264
(format `"MP4 (H.264)"`), preset medium and no bitrate, the builder emits
exactly `ffmpeg -i clip.mov -y -c:v libx264 -preset medium -c:a aac
-b:a 192k clip_converted.mp4`; in particular it (a) sets the input to
`clip.mov`, (b) selects `libx264`, (c) selects preset `medium`, (d) has
no explicit video-bitrate flag `-b:v` (the spec's nullable `bitrate`
field is the video bitrate; the muxed audio stream's `-b:a` is a separate
always-present parameter per spec section 4.1), and (e) ends with the
output path `clip_converted.mp4` beside the input. -/
theorem c1_clip_mov_command :
    buildFfmpegCommand "clip.mov" "Video" "MP4 (H.264)" c1Settings =
      ["ffmpeg", "-i", "clip.mov", "-y", "-c:v", "libx264",
       "-preset", "medium", "-c:a", "aac", "-b:a", "192k",
       "clip_converted.mp4"]
    ∧ "-b:v" ∉ buildFfmpegCommand "clip.mov" "Video" "MP4 (H.264)" c1Settings
    ∧ (buildFfmpegCommand "clip.mov" "Video" "MP4 (H.264)"
        c1Settings).getLast? = some "clip_converted.mp4" := by
  decide

/-- An encoder widget state for an audio conversion; like every
`EncSettings` it has no overwrite request, because the encoder UI offers
none. -/
def c4Settings : EncSettings :=
  { outputDir := some "/tmp/out", resolution := "Original", presetIdx := 4,
    videoBitrate := "", fps := "Original", audioCodec := "AAC",
    audioBitrate := "192k", sampleRate := "Original" }

/-- C4 counterexample: the claim says the overwrite flag `-y` reaches the
external tool only when the spec explicitly requests overwriting.  The
source has no overwrite option at all, so no spec requests it — yet both
builders emit `-y` for these concrete jobs, so an existing output file is
clobbered by default. -/
theorem c4_overwrite_flag_counterexample :
    "-y" ∈ buildFfmpegCommand "song.wav" "Audio" "MP3" c4Settings
    ∧ "-y" ∈ buildRecordCommand "screen_only" ⟨23, "fast"⟩ 30 ":0"
        "/tmp/rec/recording_20250101_120000.mp4" := by
  decide

/-- C4 amended: both command builders pass the overwrite-confirmation
flag `-y` unconditionally, for every job; overwriting is the default, not
an explicitly requested option. -/
theorem c4_always_overwrite_flag :
    (∀ (inp cat fmt : String) (s : EncSettings),
      "-y" ∈ buildFfmpegCommand inp cat fmt s)
    ∧ (∀ (p : String) (q : Quality) (fps : Nat) (d o : String),
      "-y" ∈ buildRecordCommand p q fps d o) := by
  constructor
  · intro inp cat fmt s
    simp [buildFfmpegCommand]
  · intro p q fps d o
    simp [buildRecordCommand]

/-- C10: with the same quality settings, frame rate and output file, the
capture command for the `screen_audio` preset equals the command for the
`screen_mic` preset element for element (both append `-f pulse -i
default`), and the `screen_all` preset appends that same audio input
block twice. -/
theorem c10_screen_audio_eq_screen_mic :
    ∀ (q : Quality) (fps : Nat) (display outFile : String),
      buildRecordCommand "screen_audio" q fps display outFile =
        buildRecordCommand "screen_mic" q fps display outFile
      ∧ buildRecordCommand "screen_all" q fps display outFile =
        ["ffmpeg", "-y", "-f", "x11grab", "-framerate", toString fps,
         "-i", display, "-f", "pulse", "-i", "default",
         "-f", "pulse", "-i", "default",
         "-c:v", "libx264", "-preset", q.preset, "-crf", toString q.crf,
         "-pix_fmt", "yuv420p", "-c:a", "aac", "-b:a", "128k",
         outFile] := by
  intro q fps display outFile
  exact ⟨rfl, rfl⟩

/-- A 3-file batch in which the second file's `Popen` raises (for example
the executable is suddenly unavailable) and the others succeed. -/
def c2Outcome : String → JobOutcome := fun f =>
  if f = "b.mp4" then .raiseSpawn "No such file or directory" else .ok

/-- C2 counterexample: in the 3-spec batch whose second spec fails, the
third file's process is never spawned — `_encode_error` clears
`is_encoding`, which the loop reads as a cancellation — and the final
report is the unconditional `"Encoding complete!"`, not 2 successes and
1 failure (no failure count exists anywhere in `_encode_files`). -/
theorem c2_batch_abort_counterexample :
    "c.mp4" ∉ (encodeFiles ["a.mp4", "b.mp4", "c.mp4"] c2Outcome).processed
    ∧ (encodeFiles ["a.mp4", "b.mp4", "c.mp4"] c2Outcome).processed
        = ["a.mp4"]
    ∧ (encodeFiles ["a.mp4", "b.mp4", "c.mp4"] c2Outcome).label
        = "Encoding complete!" := by
  decide

/-- C2 amended: when a job's process raises, the error handler clears the
encoding flag, so every remaining job in the batch is skipped rather than
run; no failure count is accumulated, and for every batch whatsoever the
completion handler reports `"Encoding complete!"` with progress 1 — in
the concrete 3-spec batch with a failing second spec, only the first file
is processed. -/
theorem c2_batch_error_skips_rest :
    (∀ (files : List String) (outcome : String → JobOutcome),
      (encodeFiles files outcome).label = "Encoding complete!"
      ∧ (encodeFiles files outcome).progressBar = 1
      ∧ (encodeFiles files outcome).isEncoding = false)
    ∧ (encodeFiles ["a.mp4", "b.mp4", "c.mp4"] c2Outcome).processed
        = ["a.mp4"] := by
  refine ⟨fun files outcome => ⟨rfl, rfl, rfl⟩, by decide⟩

/-- C3: the claim says a diagnostic line carrying the `time=` marker
yields a progress value `min(1, elapsed/total)`.  The source recognizes
the marker but the branch under it is `pass` (encoder.py 632-634): no
line — marker or not — ever produces a progress value, even though the
marker test itself does match such lines.  This contradicts the code's
own comment ("Extract time and calculate progress") and the spec, so the
claim is right and the code is the slip. -/
theorem c3_progress_parse_noop :
    (∀ (isEnc : Bool) (line : String), monitorLine isEnc line = none)
    ∧ strContains "frame=1 fps=0 time=00:00:05.00" "time=" = true := by
  constructor
  · intro b l
    simp [monitorLine]
  · decide

/-- The UI state of a job that has just reached `Done`
(`_encode_complete` ran). -/
def c5DoneState : EncoderUI :=
  encodeCompleteUI ⟨true, "Encoding: clip.mov", false, true, 0⟩

/-- C5 counterexample: cancelling a job already in the terminal `Done`
state is not a no-op — `cancel_encode` runs unconditionally and
overwrites the displayed state, turning `"Encoding complete!"` into
`"Encoding cancelled"`. -/
theorem c5_cancel_after_done_counterexample :
    cancelEncodeUI c5DoneState ≠ c5DoneState
    ∧ c5DoneState.label = "Encoding complete!"
    ∧ (cancelEncodeUI c5DoneState).label = "Encoding cancelled" := by
  decide

/-- C5 amended: a further cancel/stop call never raises and cancelling
twice has the same effect as cancelling once (both `cancel_encode` and
`_stop_recording` are idempotent state transitions), but a cancel on a
terminal job is not a pure no-op: it always rewrites the status text to
`"Encoding cancelled"`, whatever terminal state the job was in (only the
progress-bar value is preserved). -/
theorem c5_cancel_idempotent :
    (∀ s : EncoderUI, cancelEncodeUI (cancelEncodeUI s) = cancelEncodeUI s)
    ∧ (∀ s : RecorderUI,
        stopRecordingUI (stopRecordingUI s) = stopRecordingUI s)
    ∧ (∀ s : EncoderUI, (cancelEncodeUI s).label = "Encoding cancelled"
        ∧ (cancelEncodeUI s).progressBar = s.progressBar) := by
  exact ⟨fun _ => rfl, fun _ => rfl, fun _ => ⟨rfl, rfl⟩⟩

/-- C6 counterexample: when writing the quit byte raises (stdin pipe
already closed), the bare `except` in `_stop_recording` calls
`terminate()` immediately — the force-terminate step runs without any
5-second grace wait having elapsed, contradicting "only force-terminates
after the grace deadline elapses without exit". -/
theorem c6_terminate_without_grace_counterexample :
    stopRecordingTrace false true true = [.writeQ, .terminateProc]
    ∧ StopAction.terminateProc ∈ stopRecordingTrace false true true
    ∧ (∀ b : Bool, StopAction.waitProc b ∉ stopRecordingTrace false true true)
    ∧ stopGraceSeconds = 5 := by
  decide

/-- C6 amended: stopping always attempts the graceful path first — every
trace of `_stop_recording` begins with writing the quit byte, and when
force-terminate occurs it is the last step — but force-terminate fires
not only after the 5-second grace wait times out: it also fires
immediately when the write or flush of the quit byte itself fails.
Terminate occurs exactly when any of the three graceful steps fails. -/
theorem c6_graceful_attempt_first :
    ∀ (writeOk flushOk exitsInGrace : Bool),
      (stopRecordingTrace writeOk flushOk exitsInGrace).head?
          = some .writeQ
      ∧ (StopAction.terminateProc
            ∈ stopRecordingTrace writeOk flushOk exitsInGrace
          ↔ ¬(writeOk = true ∧ flushOk = true ∧ exitsInGrace = true))
      ∧ ((stopRecordingTrace writeOk flushOk exitsInGrace).getLast?
            = some .terminateProc
          ∨ StopAction.terminateProc
              ∉ stopRecordingTrace writeOk flushOk exitsInGrace) := by
  decide

/-- C7: pausing then resuming a running recording returns it to the
running state without restarting the underlying process — the two calls
send SIGSTOP then SIGCONT to the same process identifier, and neither
spawns any process. -/
theorem c7_pause_resume_same_process :
    ∀ (s : RecorderUI) (pid : Nat),
      s.processPid = some pid → s.isPaused = false →
      (togglePause (togglePause s).1).1.isPaused = false
      ∧ (togglePause (togglePause s).1).1.processPid = some pid
      ∧ (togglePause (togglePause s).1).1.status = "🔴 Recording..."
      ∧ (togglePause s).2 = [.sendSignal pid .sigstop]
      ∧ (togglePause (togglePause s).1).2 = [.sendSignal pid .sigcont]
      ∧ (∀ a ∈ (togglePause s).2 ++ (togglePause (togglePause s).1).2,
          ∀ p : Nat, a ≠ .spawnProc p) := by
  intro s pid h1 h2
  simp [togglePause, h1, h2]

/-- A running, unpaused recording session on process 42. -/
def c7RunningState : RecorderUI :=
  { isRecording := true, isPaused := false, processPid := some 42,
    status := "🔴 Recording..." }

/-- Witness for C7 at the concrete running state on process 42. -/
theorem c7_pause_resume_same_process_witness :
    c7RunningState.processPid = some 42
    ∧ c7RunningState.isPaused = false
    ∧ ((togglePause (togglePause c7RunningState).1).1.isPaused = false
      ∧ (togglePause (togglePause c7RunningState).1).1.processPid = some 42
      ∧ (togglePause (togglePause c7RunningState).1).1.status
          = "🔴 Recording..."
      ∧ (togglePause c7RunningState).2 = [.sendSignal 42 .sigstop]
      ∧ (togglePause (togglePause c7RunningState).1).2
          = [.sendSignal 42 .sigcont]
      ∧ (∀ a ∈ (togglePause c7RunningState).2
            ++ (togglePause (togglePause c7RunningState).1).2,
          ∀ p : Nat, a ≠ .spawnProc p)) :=
  ⟨rfl, rfl, c7_pause_resume_same_process c7RunningState 42 rfl rfl⟩

/-- In a `mtimeDesc`-sorted list, a strictly-newest member is the head. -/
lemma sorted_strict_max_head (l : List DirEntry) (f : DirEntry)
    (hs : List.Sorted mtimeDesc l) (hf : f ∈ l)
    (hmax : ∀ g ∈ l, g ≠ f → g.mtime < f.mtime) : l.head? = some f := by
  cases l with
  | nil => cases hf
  | cons h t =>
    by_cases hhf : h = f
    · rw [hhf]
      rfl
    · exfalso
      have hft : f ∈ t := by
        rcases List.mem_cons.mp hf with he | ht
        · exact absurd he.symm hhf
        · exact ht
      have h1 : f.mtime ≤ h.mtime := (List.sorted_cons.mp hs).1 f hft
      have h2 : h.mtime < f.mtime := hmax h (List.mem_cons_self h t) hhf
      omega

/-- `take 10` keeps the head of a list. -/
lemma head?_take_ten (l : List DirEntry) : (l.take 10).head? = l.head? := by
  cases l <;> rfl

/-- C8 counterexample: the registry is built from
`output_dir.glob("*.mp4")`, so after stopping a recording saved in any
other offered container format the registry gains no entry referencing
the produced output — here an mkv recording is the directory's only file
and the registry comes back empty. -/
theorem c8_mkv_recording_not_listed :
    refreshRecordingsList [⟨"recording_20250101_120000.mkv", 100⟩] = []
    ∧ (⟨"recording_20250101_120000.mkv", 100⟩ : DirEntry)
        ∉ refreshRecordingsList [⟨"recording_20250101_120000.mkv", 100⟩] := by
  decide

/-- C8 amended: the registry equals the bounded window (at most 10) of
the most recent `.mp4` files ordered by modification time, newest first —
but only `.mp4` files: an entry in any other container format never
appears, and a strictly newest `.mp4` file is the window's first entry. -/
theorem c8_registry_window :
    ∀ dir : List DirEntry,
      (refreshRecordingsList dir).length ≤ 10
      ∧ (∀ f ∈ refreshRecordingsList dir, strEndsWith f.name ".mp4" = true)
      ∧ List.Sorted mtimeDesc (refreshRecordingsList dir)
      ∧ (∀ f ∈ dir, strEndsWith f.name ".mp4" = false →
          f ∉ refreshRecordingsList dir)
      ∧ (∀ f ∈ dir, strEndsWith f.name ".mp4" = true →
          (∀ g ∈ dir, strEndsWith g.name ".mp4" = true →
            g ≠ f → g.mtime < f.mtime) →
          (refreshRecordingsList dir).head? = some f) := by
  intro dir
  have hmem : ∀ f ∈ refreshRecordingsList dir,
      f ∈ dir.filter (fun g => strEndsWith g.name ".mp4") := by
    intro f hf
    have h1 : f ∈ List.insertionSort mtimeDesc
        (dir.filter (fun g => strEndsWith g.name ".mp4")) :=
      List.take_subset 10 _ hf
    exact (List.perm_insertionSort mtimeDesc _).mem_iff.mp h1
  refine ⟨List.length_take_le 10 _, ?_, ?_, ?_, ?_⟩
  · intro f hf
    exact (List.mem_filter.mp (hmem f hf)).2
  · exact List.Pairwise.sublist (List.take_sublist 10 _)
      (List.sorted_insertionSort mtimeDesc _)
  · intro f _ hnot hmemf
    have := (List.mem_filter.mp (hmem f hmemf)).2
    rw [hnot] at this
    cases this
  · intro f hf hmp4 hmax
    have hfs : f ∈ List.insertionSort mtimeDesc
        (dir.filter (fun g => strEndsWith g.name ".mp4")) :=
      (List.perm_insertionSort mtimeDesc _).mem_iff.mpr
        (List.mem_filter.mpr ⟨hf, hmp4⟩)
    have hmax' : ∀ g ∈ List.insertionSort mtimeDesc
        (dir.filter (fun k => strEndsWith k.name ".mp4")),
        g ≠ f → g.mtime < f.mtime := by
      intro g hg hgf
      have := List.mem_filter.mp
        ((List.perm_insertionSort mtimeDesc _).mem_iff.mp hg)
      exact hmax g this.1 this.2 hgf
    have := sorted_strict_max_head _ f
      (List.sorted_insertionSort mtimeDesc _) hfs hmax'
    rw [refreshRecordingsList, head?_take_ten, this]

/-- The output directory of the C8 witness: two mp4 recordings and one
mkv recording, the mp4 with modification time 9 being the newest mp4. -/
def c8Dir : List DirEntry := [⟨"a.mp4", 5⟩, ⟨"b.mp4", 9⟩, ⟨"c.mkv", 50⟩]

/-- Witness for C8 at the concrete directory `c8Dir`. -/
theorem c8_registry_window_witness :
    (refreshRecordingsList c8Dir).length ≤ 10
    ∧ (⟨"c.mkv", 50⟩ : DirEntry) ∉ refreshRecordingsList c8Dir
    ∧ (refreshRecordingsList c8Dir).head? = some ⟨"b.mp4", 9⟩ :=
  ⟨(c8_registry_window c8Dir).1,
   (c8_registry_window c8Dir).2.2.2.1 ⟨"c.mkv", 50⟩ (by decide) (by decide),
   (c8_registry_window c8Dir).2.2.2.2 ⟨"b.mp4", 9⟩ (by decide) (by decide)
     (by decide)⟩

/-- C9 counterexample: two capture runs with identical job settings
(preset, quality, fps, output directory) produce different argument
lists when the `DISPLAY` environment variable differs, and likewise when
only the spawn-time timestamp embedded in the output file name differs —
the builder's output is not a function of the job settings alone. -/
theorem c9_hidden_state_counterexample :
    buildRecordCommand "screen_only" ⟨23, "fast"⟩ 30 ":0"
        "/d/recording_20250101_120000.mp4"
      ≠ buildRecordCommand "screen_only" ⟨23, "fast"⟩ 30 ":1"
        "/d/recording_20250101_120000.mp4"
    ∧ buildRecordCommand "screen_audio" ⟨23, "fast"⟩ 30 ":0"
        (mkOutputFile "/d" "20250101_120000" "mp4")
      ≠ buildRecordCommand "screen_audio" ⟨23, "fast"⟩ 30 ":0"
        (mkOutputFile "/d" "20250101_120001" "mp4") := by
  decide

/-- Left-cancellation of string concatenation. -/
lemma strAppendCancelLeft {a b c : String} (h : a ++ b = a ++ c) :
    b = c := by
  have hd := congrArg String.data h
  simp only [String.data_append] at hd
  exact String.ext (List.append_cancel_left hd)

/-- Right-cancellation of string concatenation. -/
lemma strAppendCancelRight {a b c : String} (h : a ++ c = b ++ c) :
    a = b := by
  have hd := congrArg String.data h
  simp only [String.data_append] at hd
  exact String.ext (List.append_cancel_right hd)

/-- `joinPath` with a fixed directory is injective in the file name. -/
lemma joinPath_inj {d n₁ n₂ : String}
    (h : joinPath d n₁ = joinPath d n₂) : n₁ = n₂ := by
  unfold joinPath at h
  split_ifs at h
  · exact h
  · exact h
  · exact strAppendCancelLeft h
  · exact strAppendCancelLeft h

/-- `mkOutputFile` with fixed directory and extension is injective in
the timestamp. -/
lemma mkOutputFile_inj {dir e t₁ t₂ : String}
    (h : mkOutputFile dir t₁ e = mkOutputFile dir t₂ e) : t₁ = t₂ := by
  have h1 := joinPath_inj h
  have h2 := strAppendCancelRight h1
  have h3 := strAppendCancelRight h2
  exact strAppendCancelLeft h3

/-- C9 amended: the capture command builder is not a function of the job
settings alone — its output determines, and so depends on, both the
`DISPLAY` environment value placed after the screen-grab `-i` flag and
the spawn-time timestamp embedded in the output path, so runs with
identical settings but different environment or start time produce
different argument lists. -/
theorem c9_recorder_depends_on_environment :
    (∀ (q : Quality) (fps : Nat) (d₁ d₂ out : String), d₁ ≠ d₂ →
      buildRecordCommand "screen_only" q fps d₁ out
        ≠ buildRecordCommand "screen_only" q fps d₂ out)
    ∧ (∀ (q : Quality) (fps : Nat) (d dir e t₁ t₂ : String), t₁ ≠ t₂ →
      buildRecordCommand "screen_only" q fps d (mkOutputFile dir t₁ e)
        ≠ buildRecordCommand "screen_only" q fps d
            (mkOutputFile dir t₂ e)) := by
  constructor
  · intro q fps d₁ d₂ out hne heq
    have e1 : buildRecordCommand "screen_only" q fps d₁ out =
        ["ffmpeg", "-y", "-f", "x11grab", "-framerate", toString fps,
         "-i", d₁, "-c:v", "libx264", "-preset", q.preset,
         "-crf", toString q.crf, "-pix_fmt", "yuv420p", out] := rfl
    have e2 : buildRecordCommand "screen_only" q fps d₂ out =
        ["ffmpeg", "-y", "-f", "x11grab", "-framerate", toString fps,
         "-i", d₂, "-c:v", "libx264", "-preset", q.preset,
         "-crf", toString q.crf, "-pix_fmt", "yuv420p", out] := rfl
    rw [e1, e2] at heq
    simp only [List.cons.injEq, and_true, true_and] at heq
    exact hne heq
  · intro q fps d dir e t₁ t₂ hne heq
    have e1 : buildRecordCommand "screen_only" q fps d
        (mkOutputFile dir t₁ e) =
        ["ffmpeg", "-y", "-f", "x11grab", "-framerate", toString fps,
         "-i", d, "-c:v", "libx264", "-preset", q.preset,
         "-crf", toString q.crf, "-pix_fmt", "yuv420p",
         mkOutputFile dir t₁ e] := rfl
    have e2 : buildRecordCommand "screen_only" q fps d
        (mkOutputFile dir t₂ e) =
        ["ffmpeg", "-y", "-f", "x11grab", "-framerate", toString fps,
         "-i", d, "-c:v", "libx264", "-preset", q.preset,
         "-crf", toString q.crf, "-pix_fmt", "yuv420p",
         mkOutputFile dir t₂ e] := rfl
    rw [e1, e2] at heq
    simp only [List.cons.injEq, and_true, true_and] at heq
    exact hne (mkOutputFile_inj heq)

/-- Witness for C9 at concrete displays `:0` vs `:1` and concrete
timestamps one second apart. -/
theorem c9_recorder_depends_on_environment_witness :
    buildRecordCommand "screen_only" ⟨18, "medium"⟩ 60 ":0" "out.mp4"
      ≠ buildRecordCommand "screen_only" ⟨18, "medium"⟩ 60 ":1" "out.mp4"
    ∧ buildRecordCommand "screen_only" ⟨18, "medium"⟩ 60 ":0"
        (mkOutputFile "/v" "20260101_000000" "mp4")
      ≠ buildRecordCommand "screen_only" ⟨18, "medium"⟩ 60 ":0"
        (mkOutputFile "/v" "20260101_000001" "mp4") :=
  ⟨c9_recorder_depends_on_environment.1 ⟨18, "medium"⟩ 60 ":0" ":1"
     "out.mp4" (by decide),
   c9_recorder_depends_on_environment.2 ⟨18, "medium"⟩ 60 ":0" "/v" "mp4"
     "20260101_000000" "20260101_000001" (by decide)⟩

end N01D
